import Mathlib

/-!
Verification development for the DevUI authenticated request gateway:
bearer-token validation (`_auth.py`), the authentication middleware and
SSE streaming aggregator (`_server.py`), and the execution-context
propagator (`_context.py`), embedded shallowly as pure Lean functions.
External effects (environment lookup, network fetches, monotonic clock,
the PyJWT decode primitive) are passed in explicitly as data.
-/

namespace DevUI

/-- Python truthiness of an optional string: `None` and the empty string
are falsy, every other string is truthy. -/
def pyTruthy : Option String → Bool
  | none => false
  | some s => !(s == "")

/-- Python truthiness, returning the string when truthy: models idioms
such as `x = d.get(k)` followed by `if not x`. -/
def pyTruthyOpt : Option String → Option String
  | none => none
  | some s => if s == "" then none else some s

/-- Python `a or b` on optional strings: yields `a` when `a` is truthy,
otherwise yields `b` unchanged (which may itself be falsy). -/
def pyOrStr (a b : Option String) : Option String :=
  if pyTruthy a then a else b

/-- Python `int(s)` modelled as parsing the trimmed string; `none` models
a `ValueError`. -/
def pyInt (s : String) : Option Int :=
  s.trim.toInt?

/-- Python `s.rstrip("/")`: drop trailing slash characters. -/
def rstripSlash (s : String) : String :=
  ⟨(s.data.reverse.dropWhile (fun c => c == '/')).reverse⟩

/-- Python `s.startswith(pre)` at the character level. -/
def pyStartswith (s pre : String) : Bool :=
  pre.data.isPrefixOf s.data

/-- Character-level string splitting: cut the character list at every
character satisfying the predicate, keeping empty segments, as Python
`str.split` with an explicit separator does. -/
def splitByList (p : Char → Bool) : List Char → List (List Char)
  | [] => [[]]
  | c :: rest =>
    match splitByList p rest with
    | [] => [[]]
    | g :: gs => if p c then [] :: g :: gs else (c :: g) :: gs

/-- Python `s.split(sep)` for a one-character separator. -/
def pySplitChar (s : String) (sep : Char) : List String :=
  (splitByList (fun c => c == sep) s.data).map String.mk

/-- Splitting on a class of separator characters; with empty segments
dropped afterwards this matches the `re.split` on separator runs used by
the settings loader. -/
def pySplitPred (s : String) (p : Char → Bool) : List String :=
  (splitByList p s.data).map String.mk

/-- Python `s.strip()`: drop leading and trailing whitespace. -/
def pyStrip (s : String) : String :=
  ⟨((s.data.dropWhile Char.isWhitespace).reverse.dropWhile Char.isWhitespace).reverse⟩

/-- Python `s.lower()` on the ASCII range. -/
def pyLower (s : String) : String :=
  ⟨s.data.map Char.toLower⟩

/-- Python `s.replace(a, b)` for one-character pattern and replacement. -/
def pyReplaceChar (s : String) (a b : Char) : String :=
  ⟨s.data.map (fun c => if c == a then b else c)⟩

/-- Python `s.partition(sep)` for a one-character separator, restricted to
the first and third components: split at the first occurrence of `sep`;
when `sep` is absent the whole string is the first component and the rest
is empty. -/
def pyPartition (s : String) (sep : Char) : String × String :=
  match pySplitChar s sep with
  | [] => (s, "")
  | [x] => (x, "")
  | x :: rest => (x, ⟨List.intercalate [sep] (rest.map String.data)⟩)

/-- Decidable equality of `Except` results, for evaluating the embedded
functions at concrete inputs. -/
instance {ε α : Type} [DecidableEq ε] [DecidableEq α] : DecidableEq (Except ε α) := fun a b =>
  match a, b with
  | .error e1, .error e2 =>
    if h : e1 = e2 then .isTrue (by rw [h])
    else .isFalse (by intro hc; injection hc; contradiction)
  | .ok x, .ok y =>
    if h : x = y then .isTrue (by rw [h])
    else .isFalse (by intro hc; injection hc; contradiction)
  | .error _, .ok _ => .isFalse (by intro hc; exact Except.noConfusion hc)
  | .ok _, .error _ => .isFalse (by intro hc; exact Except.noConfusion hc)

/-- Mirror of `AuthenticationError` from `_auth.py`: a message together
with the HTTP-style status code it carries (default 401 at raise sites
that do not pass one). -/
structure AuthErr where
  message : String
  status_code : Nat
deriving DecidableEq

/-- A JWT claim value as seen by `_ensure_tuple` in `_auth.py`: absent or
falsy, a plain string, a list of strings, or some other truthy value whose
`str()` form is recorded. -/
inductive ClaimVal where
  | absent
  | str (s : String)
  | items (xs : List String)
  | raw (s : String)
deriving DecidableEq

/-- Mirror of `_ensure_tuple` from `_auth.py`: falsy values give the empty
tuple, lists keep their truthy members, strings are split on the separator
with each segment stripped and empty segments dropped, and any other
truthy value becomes a one-element tuple. -/
def ensure_tuple (value : ClaimVal) (separator : Char) : List String :=
  match value with
  | .absent => []
  | .str s =>
      if s == "" then []
      else ((pySplitChar s separator).map pyStrip).filter (fun seg => !(seg == ""))
  | .items xs =>
      if xs == [] then [] else xs.filter (fun item => !(item == ""))
  | .raw s => [s]

/-- Mirror of `_parse_environment_list` from `_auth.py`: split the stripped
raw value on runs of commas, semicolons and whitespace, keeping the
non-empty pieces; `None` and the empty string give the empty tuple. -/
def parse_environment_list (raw_value : Option String) : List String :=
  match raw_value with
  | none => []
  | some raw =>
      if raw == "" then []
      else (pySplitPred (pyStrip raw) (fun c => c == ',' || c == ';' || c.isWhitespace)).filter
        (fun v => !(v == ""))

/-- Mirror of the `EntraAuthSettings` dataclass from `_auth.py`. -/
structure EntraAuthSettings where
  tenant_id : String
  audiences : List String
  required_scopes : List String
  required_app_roles : List String
  authority_host : String
  jwks_cache_ttl_seconds : Int
  clock_skew_seconds : Int
deriving DecidableEq

/-- The environment variables read by `EntraAuthSettings.from_env`; `none`
models an unset variable. -/
structure EnvMap where
  tenant_id_var : Option String
  allowed_audiences_var : Option String
  required_scopes_var : Option String
  required_app_roles_var : Option String
  authority_host_var : Option String
  clock_skew_var : Option String
  jwks_cache_ttl_var : Option String
deriving DecidableEq

/-- Failure mode of the settings loader: an `AuthenticationError` raised
explicitly, or the `ValueError` escaping from `int(...)` on the named
variable. -/
inductive LoadError where
  | auth (e : AuthErr)
  | value_error (var_name : String)
deriving DecidableEq

/-- Mirror of `EntraAuthSettings.from_env` from `_auth.py`: the tenant and
audience variables are mandatory (falsy values rejected with a 500-status
error naming the variable), the audience list is parsed by replacing
semicolons with commas, splitting on commas, stripping and dropping empty
entries, and must be non-empty; scopes and roles are optional lists; the
authority host default is applied only when the variable is unset and a
trailing slash is stripped; skew and cache TTL are parsed as integers. -/
def from_env (env : EnvMap) : Except LoadError EntraAuthSettings :=
  match pyTruthyOpt env.tenant_id_var with
  | none => .error (.auth ⟨"DEVUI_AZURE_AD_TENANT_ID is not configured on the server.", 500⟩)
  | some tenant_id =>
    match pyTruthyOpt env.allowed_audiences_var with
    | none =>
        .error (.auth ⟨"DEVUI_AZURE_AD_ALLOWED_AUDIENCES is not configured on the server.", 500⟩)
    | some raw_audiences =>
      let audiences :=
        ((pySplitChar (pyReplaceChar raw_audiences ';' ',') ',').map pyStrip).filter
          (fun a => !(a == ""))
      if audiences == [] then
        .error
          (.auth ⟨"DEVUI_AZURE_AD_ALLOWED_AUDIENCES must contain at least one audience value.", 500⟩)
      else
        let required_scopes := parse_environment_list env.required_scopes_var
        let required_app_roles := parse_environment_list env.required_app_roles_var
        let authority_host := env.authority_host_var.getD "https://login.microsoftonline.com"
        match pyInt (env.clock_skew_var.getD "60") with
        | none => .error (.value_error "DEVUI_AZURE_AD_CLOCK_SKEW")
        | some skew_seconds =>
          match pyInt (env.jwks_cache_ttl_var.getD "3600") with
          | none => .error (.value_error "DEVUI_AZURE_AD_JWKS_CACHE_TTL")
          | some cache_seconds =>
            .ok ⟨tenant_id, audiences, required_scopes, required_app_roles,
                 rstripSlash authority_host, cache_seconds, skew_seconds⟩

/-- The payload claims of a presented token, as read back by `jwt.decode`
in `_auth.py`. `aud` is the audience claim normalised to a list (a string
audience is a one-element list); optional string claims use `none` for an
absent key and may carry the empty string when the key is present but
empty. -/
structure TokenClaims where
  aud : List String
  iss : String
  tid : Option String
  oid : Option String
  sub : Option String
  name : Option String
  preferred_username : Option String
  upn : Option String
  roles : ClaimVal
  scp : ClaimVal
deriving DecidableEq

/-- A presented bearer token, abstracting the PyJWT primitives applied to
it in `_auth.py`: whether `get_unverified_header` succeeds, the `kid`
header field, the key material (if any) under which the RS256 signature
verifies, whether the expiry check (with the configured leeway) fails,
whether any other `jwt.decode` validation step fails, and the payload
claims revealed on success. -/
structure TokenData where
  headerOk : Bool
  kid : Option String
  sigKeyMat : Option Nat
  expired : Bool
  otherInvalid : Bool
  claims : TokenClaims
deriving DecidableEq

/-- One entry of the JWKS key list: its `kid` field (possibly absent) and
its key material, abstracted as a number identifying the public key. -/
structure JWK where
  kid : Option String
  mat : Nat
deriving DecidableEq

/-- The cached OpenID provider metadata: issuer and JWKS endpoint. -/
structure OpenIdConfig where
  issuer : String
  jwks_uri : String
deriving DecidableEq

/-- The mutable fields of `EntraTokenValidator`: cached metadata, cached
key set (the `keys` list of the JWKS document) and its expiry instant. -/
structure VState where
  openid_configuration : Option OpenIdConfig
  jwks : Option (List JWK)
  jwks_expires_at : Int
deriving DecidableEq

/-- The external world seen by one `validate_token` call: the monotonic
clock reading and the documents a metadata or key-set fetch would return
(`none` models a fetch that yields no usable data and is rejected with a
500-status error). -/
structure World where
  now : Int
  openidFetch : Option OpenIdConfig
  jwksFetch : Option (List JWK)
deriving DecidableEq

/-- Failure modes of the abstracted `jwt.decode` call. -/
inductive DecodeFailure where
  | badSignature
  | expiredSig
  | badAudience
  | badIssuer
  | otherFailure
deriving DecidableEq

/-- Abstraction of `jwt.decode(token, key, algorithms=["RS256"],
audience=..., issuer=..., leeway=...)`: the signature must verify under
the supplied key, the token must not be expired beyond the leeway, some
audience claim entry must lie in the accepted set, the issuer claim must
equal the expected issuer, and no other validation step may fail. -/
def jwtDecode (token : TokenData) (keyMat : Nat) (audiences : List String) (issuer : String) :
    Except DecodeFailure TokenClaims :=
  if token.sigKeyMat ≠ some keyMat then .error .badSignature
  else if token.expired then .error .expiredSig
  else if !(token.claims.aud.any (fun a => audiences.contains a)) then .error .badAudience
  else if token.claims.iss ≠ issuer then .error .badIssuer
  else if token.otherInvalid then .error .otherFailure
  else .ok token.claims

/-- Mirror of `EntraTokenValidator._get_signing_key`: a falsy cached JWKS
yields no key, otherwise the first key whose `kid` field equals the wanted
key id is returned. -/
def get_signing_key (jwks : Option (List JWK)) (key_id : String) : Option JWK :=
  match jwks with
  | none => none
  | some keys => keys.find? (fun k => k.kid == some key_id)

/-- Mirror of `EntraTokenValidator._ensure_openid_configuration`: a no-op
when metadata is cached, otherwise one fetch whose falsy result is a
500-status failure. -/
def ensure_openid_configuration (world : World) (st : VState) : Except AuthErr VState :=
  match st.openid_configuration with
  | some _ => .ok st
  | none =>
    match world.openidFetch with
    | none => .error ⟨"Failed to load OpenID configuration.", 500⟩
    | some data => .ok { st with openid_configuration := some data }

/-- Mirror of `EntraTokenValidator._ensure_jwks`: a no-op when the key set
is cached, the call is not forced and the cache has not expired; otherwise
(the double-checked condition re-evaluates identically in this sequential
model) the JWKS endpoint from the cached metadata is fetched, a falsy
result is a 500-status failure, and a successful fetch replaces the key
set wholesale and pushes the expiry one TTL into the future. The returned
number counts the fetches performed (0 or 1). -/
def ensure_jwks (settings : EntraAuthSettings) (world : World) (st : VState)
    (force_refresh : Bool) : Except AuthErr (VState × Nat) :=
  if st.jwks.isSome && !force_refresh && decide (world.now < st.jwks_expires_at) then
    .ok (st, 0)
  else
    match st.openid_configuration with
    | none => .error ⟨"OpenID configuration not initialized.", 500⟩
    | some _ =>
      match world.jwksFetch with
      | none => .error ⟨"Failed to load JWKS signing keys.", 500⟩
      | some data =>
        .ok ({ st with
                jwks := some data,
                jwks_expires_at := world.now + settings.jwks_cache_ttl_seconds }, 1)

/-- Mirror of `AuthenticatedUser` from `_auth.py`. -/
structure AuthenticatedUser where
  object_id : String
  tenant_id : String
  name : Option String
  preferred_username : Option String
  roles : List String
  scopes : List String
  claims : TokenClaims
deriving DecidableEq

/-- The claim checks of `EntraTokenValidator.validate_token` that run on
the decoded payload: reject a truthy tenant claim that does not
case-insensitively match the configured tenant with a 403, require a
truthy `oid`-or-`sub` subject, extract roles (comma separator) and scopes
(space separator), enforce a non-empty intersection with each configured
requirement set with a 403 on failure, and build the `AuthenticatedUser`,
falling back to the configured tenant when the tenant claim is falsy. -/
def claims_validation (settings : EntraAuthSettings) (claims : TokenClaims) :
    Except AuthErr AuthenticatedUser :=
  if (match pyTruthyOpt claims.tid with
      | some t => pyLower t != pyLower settings.tenant_id
      | none => false) then
    .error ⟨"Token tenant does not match configured tenant.", 403⟩
  else
    match pyTruthyOpt (pyOrStr claims.oid claims.sub) with
    | none => .error ⟨"Token does not contain required subject identifiers.", 401⟩
    | some object_id =>
      if settings.required_scopes ≠ []
          ∧ ¬ ∃ s ∈ ensure_tuple claims.scp ' ', s ∈ settings.required_scopes then
        .error ⟨"Token missing required scope.", 403⟩
      else if settings.required_app_roles ≠ []
          ∧ ¬ ∃ r ∈ ensure_tuple claims.roles ',', r ∈ settings.required_app_roles then
        .error ⟨"Token missing required application role.", 403⟩
      else
        .ok ⟨object_id,
             (pyTruthyOpt claims.tid).getD settings.tenant_id,
             claims.name,
             pyOrStr claims.preferred_username claims.upn,
             ensure_tuple claims.roles ',', ensure_tuple claims.scp ' ', claims⟩

/-- The tail of `EntraTokenValidator.validate_token` after a signing key
has been selected: decode the token against that key (each PyJWT failure
mapped to its 401-status message; the two dynamic Python messages keep a
fixed text here since only their status matters), then run the claim
checks. -/
def finish_validation (settings : EntraAuthSettings) (st : VState) (token : TokenData)
    (signing_key : JWK) : Except AuthErr AuthenticatedUser :=
  match st.openid_configuration with
  | none => .error ⟨"OpenID configuration not initialized.", 500⟩
  | some cfg =>
    match jwtDecode token signing_key.mat settings.audiences cfg.issuer with
    | .error .badSignature => .error ⟨"Token validation failed.", 401⟩
    | .error .expiredSig => .error ⟨"Token has expired.", 401⟩
    | .error .badAudience => .error ⟨"Token audience not accepted.", 401⟩
    | .error .badIssuer => .error ⟨"Token issuer is not trusted.", 401⟩
    | .error .otherFailure => .error ⟨"Token validation failed.", 401⟩
    | .ok claims => claims_validation settings claims

/-- Mirror of `EntraTokenValidator.validate_token`: ensure metadata and a
fresh key set, parse the unverified header (its dynamic Python error
message kept fixed here), require a truthy `kid`, look the key up in the
cached set, on a miss force exactly one key-set refresh and retry the
lookup once before failing, and finish validation against the selected
key. The second component counts the forced refreshes attempted during
the call. -/
def validate_token (settings : EntraAuthSettings) (world : World) (st : VState)
    (token : TokenData) : Except AuthErr AuthenticatedUser × Nat :=
  match ensure_openid_configuration world st with
  | .error e => (.error e, 0)
  | .ok st1 =>
    match ensure_jwks settings world st1 false with
    | .error e => (.error e, 0)
    | .ok (st2, _) =>
      if !token.headerOk then (.error ⟨"Unable to parse token header.", 401⟩, 0)
      else
        match pyTruthyOpt token.kid with
        | none => (.error ⟨"Token header missing 'kid' claim.", 401⟩, 0)
        | some key_id =>
          match get_signing_key st2.jwks key_id with
          | some signing_key => (finish_validation settings st2 token signing_key, 0)
          | none =>
            match ensure_jwks settings world st2 true with
            | .error e => (.error e, 1)
            | .ok (st3, _) =>
              match get_signing_key st3.jwks key_id with
              | some signing_key => (finish_validation settings st3 token signing_key, 1)
              | none => (.error ⟨"Signing key not found for token.", 401⟩, 1)

/-- The parts of an inbound request consulted by the authentication
middleware in `_server.py`: the HTTP method, whether the resolved endpoint
carries the anonymous-allowed marker, the URL path, and the Authorization
header (`none` when absent). -/
structure HttpRequest where
  method : String
  allowAnonymous : Bool
  path : String
  authorization : Option String
deriving DecidableEq

/-- Outcome of the middleware: the request is forwarded to the next
handler (with the authenticated user attached to request state on the
protected path), or rejected with a JSON error response carrying a status
code and a detail message. -/
inductive MwOutcome where
  | forwarded (user : Option AuthenticatedUser)
  | rejected (status_code : Nat) (detail : String)
deriving DecidableEq

/-- The protected-path test from `enforce_authentication` in `_server.py`:
the path equals a configured prefix or starts with that prefix followed by
a slash. -/
def is_protected_path (protectedPrefixes : List String) (path : String) : Bool :=
  protectedPrefixes.any (fun p => path == p || pyStartswith path (p ++ "/"))

/-- Mirror of the `enforce_authentication` middleware from `_server.py`:
pre-flight requests and anonymous-marked endpoints pass through, as do
requests whose path is not protected; protected requests need a truthy
Authorization header whose first space-separated word is the scheme
`bearer` (case-insensitively) followed by a non-blank credential, which is
handed to the validator; a validation failure is rejected with exactly the
status code and message carried by the error, and success forwards the
request with the user attached. -/
def enforce_authentication (protectedPrefixes : List String)
    (validator : String → Except AuthErr AuthenticatedUser) (req : HttpRequest) : MwOutcome :=
  if req.method == "OPTIONS" then .forwarded none
  else if req.allowAnonymous then .forwarded none
  else if !is_protected_path protectedPrefixes req.path then .forwarded none
  else
    match pyTruthyOpt req.authorization with
    | none => .rejected 401 "Authorization header missing."
    | some authorization =>
      let parts := pyPartition authorization ' '
      if pyLower parts.1 != "bearer" || pyStrip parts.2 == "" then
        .rejected 401 "Bearer token required."
      else
        match validator (pyStrip parts.2) with
        | .error e => .rejected e.status_code e.message
        | .ok user => .forwarded (some user)

/-- An execution event as serialized by `DevServer._stream_execution`:
each constructor records which serialization branch of the source applies
and the string that branch would produce before any newline stripping
(`modelDump` for `model_dump_json`, `toJson` for a pretty-printed
`to_json`, `dictEvent` for `json.dumps` of a plain dict, `toDict` for
`json.dumps` of `to_dict()`, `plain` for `json.dumps(str(event))`). -/
inductive StreamEvent where
  | modelDump (payload : String)
  | toJson (payload : String)
  | dictEvent (payload : String)
  | toDict (payload : String)
  | plain (payload : String)
deriving DecidableEq

/-- The newline stripping applied to `to_json` output:
`payload.replace("\n", "").replace("\r", "")`, which removes every LF and
every CR character. -/
def strip_sse_newlines (payload : String) : String :=
  ⟨payload.data.filter (fun c => !(c == '\n') && !(c == '\r'))⟩

/-- The per-event payload selection of `DevServer._stream_execution`. -/
def serialize_event : StreamEvent → String
  | .modelDump payload => payload
  | .toJson payload => strip_sse_newlines payload
  | .dictEvent payload => payload
  | .toDict payload => payload
  | .plain payload => payload

/-- One SSE frame as yielded by the source: `data: <payload>` followed by
a blank line. -/
def sse_frame (payload : String) : String :=
  "data: " ++ payload ++ "\n\n"

/-- The terminal sentinel frame. -/
def done_frame : String := "data: [DONE]\n\n"

/-- Mirror of the `ResponseCompletedEvent` constructed at the end of a
fault-free stream: its event type, the aggregated response (kept abstract
as the string the message mapper produced), and the sequence number. -/
structure ResponseCompletedEvent where
  type : String
  response : String
  sequence_number : Nat
deriving DecidableEq

/-- Hexadecimal digits of `n` padded to width four, as used by the JSON
string escaper. -/
def hex4 (n : Nat) : List Char :=
  let ds := Nat.toDigits 16 n
  List.replicate (4 - ds.length) '0' ++ ds

/-- The escaping `json.dumps` (with its default `ensure_ascii=True`)
applies to one character of a string value. -/
def json_escape_char (c : Char) : List Char :=
  if c == '"' then ['\\', '"']
  else if c == '\\' then ['\\', '\\']
  else if c == '\n' then ['\\', 'n']
  else if c == '\r' then ['\\', 'r']
  else if c == '\t' then ['\\', 't']
  else if c.toNat == 8 then ['\\', 'b']
  else if c.toNat == 12 then ['\\', 'f']
  else if c.toNat < 32 || c.toNat > 126 then
    if c.toNat ≤ 0xFFFF then '\\' :: 'u' :: hex4 c.toNat
    else
      let n := c.toNat - 0x10000
      ('\\' :: 'u' :: hex4 (0xD800 + n / 0x400)) ++ ('\\' :: 'u' :: hex4 (0xDC00 + n % 0x400))
  else [c]

/-- `json.dumps` applied to a string value. -/
def json_dumps_str (s : String) : String :=
  ⟨'"' :: (s.data.map json_escape_char).flatten ++ ['"']⟩

/-- The structured error payload emitted on a mid-stream fault, exactly the
`json.dumps` rendering of
`\x7b"id": "error", "object": "error", "error": \x7b"message": str(e),
"type": "execution_error"\x7d\x7d` with insertion-ordered keys. -/
def error_event_json (message : String) : String :=
  "\x7b\"id\": \"error\", \"object\": \"error\", \"error\": \x7b\"message\": "
    ++ json_dumps_str message
    ++ ", \"type\": \"execution_error\"\x7d\x7d"

/-- One run of the event producer consumed by the streaming aggregator:
either it yields a finite event list and completes, or it yields a list of
events and then raises a fault carrying a message. -/
inductive Production where
  | success (events : List StreamEvent)
  | fault (events : List StreamEvent) (message : String)
deriving DecidableEq

/-- Mirror of `DevServer._stream_execution`: every produced event is
serialized and framed in production order; on completion the collected
event list is folded by the (external) aggregation function into a
completed event whose sequence number is the number of prior events,
framed with the (external) pydantic serialization, and followed by the
sentinel frame; a production fault instead ends the stream with the single
structured error frame, retracting nothing and raising nothing. -/
def stream_execution (aggregate : List StreamEvent → String)
    (dump_completed : ResponseCompletedEvent → String) : Production → List String
  | .success events =>
      events.map (fun e => sse_frame (serialize_event e))
        ++ [sse_frame (dump_completed ⟨"response.completed", aggregate events, events.length⟩),
            done_frame]
  | .fault events message =>
      events.map (fun e => sse_frame (serialize_event e))
        ++ [sse_frame (error_event_json message)]

/-- Mirror of the `ExecutionContext` dataclass from `_context.py`. -/
structure ExecutionContext where
  user : Option AuthenticatedUser
  access_token : Option String
deriving DecidableEq

/-- The value held by the context variable: `none` is its default. -/
abbrev ContextState := Option ExecutionContext

/-- The token returned by `ContextVar.set`: it records the value the
variable held before the set, which `ContextVar.reset` restores. -/
structure ContextResetToken where
  old_value : ContextState
deriving DecidableEq

/-- Mirror of `set_current_execution_context`: install the given context
in the variable and return the reset token remembering the prior value. -/
def set_current_execution_context (context : ContextState) (var : ContextState) :
    ContextResetToken × ContextState :=
  (⟨var⟩, context)

/-- Mirror of `reset_current_execution_context`: restore the value the
token recorded, whatever the variable holds now. -/
def reset_current_execution_context (token : ContextResetToken) (_var : ContextState) :
    ContextState :=
  token.old_value

/-- Mirror of `get_current_execution_context`. -/
def get_current_execution_context (var : ContextState) : ContextState :=
  var

/-- Mirror of `get_current_user_access_token`: `none` when no context is
installed, else the stored access token. -/
def get_current_user_access_token (var : ContextState) : Option String :=
  match get_current_execution_context var with
  | none => none
  | some context => context.access_token

/-- Modelled from the spec: the scoped activation `withContext(principal,
token, body)` of section 4.3 — the request handler that brackets a body
between `set_current_execution_context` and `reset_current_execution_context`
with a try/finally is not among the provided sources, so it is modelled
here directly from the spec text: install the context, run the body (a
state transformer that may finish with a value or with a fault), and
restore the prior context on both exit paths. -/
def withContext {ε α : Type} (context : ExecutionContext)
    (body : ContextState → Except ε α × ContextState) (var : ContextState) :
    Except ε α × ContextState :=
  let installed := set_current_execution_context (some context) var
  let result := body installed.2
  (result.1, reset_current_execution_context installed.1 result.2)

/-- Computation lemma: when the metadata is cached, the key set is cached
and fresh, the header parses with a truthy key id and the key id is found
in the cached key set, `validate_token` runs the post-lookup validation
against that key with no forced refresh. -/
lemma validate_token_cached_key (settings : EntraAuthSettings) (world : World) (st : VState)
    (tok : TokenData) (cfg : OpenIdConfig) (key_id : String) (key : JWK)
    (hcfg : st.openid_configuration = some cfg)
    (hjwks : st.jwks.isSome = true)
    (hfresh : world.now < st.jwks_expires_at)
    (hhdr : tok.headerOk = true)
    (hkid : pyTruthyOpt tok.kid = some key_id)
    (hfind : get_signing_key st.jwks key_id = some key) :
    validate_token settings world st tok = (finish_validation settings st tok key, 0) := by
  simp [validate_token, ensure_openid_configuration, ensure_jwks, hcfg, hjwks, hfresh, hhdr,
    hkid, hfind]

/-- Computation lemma: when the metadata is cached and every check of the
abstracted `jwt.decode` passes, the post-lookup validation reduces to the
claim checks on the token payload. -/
lemma finish_validation_decode_ok (settings : EntraAuthSettings) (st : VState)
    (tok : TokenData) (key : JWK) (cfg : OpenIdConfig)
    (hcfg : st.openid_configuration = some cfg)
    (hsig : tok.sigKeyMat = some key.mat)
    (hexp : tok.expired = false)
    (haud : tok.claims.aud.any (fun a => settings.audiences.contains a) = true)
    (hiss : tok.claims.iss = cfg.issuer)
    (hother : tok.otherInvalid = false) :
    finish_validation settings st tok key = claims_validation settings tok.claims := by
  have haud' : ¬ ∀ x ∈ tok.claims.aud, x ∉ settings.audiences := by
    simp only [List.any_eq_true] at haud
    obtain ⟨a, ha, hc⟩ := haud
    intro hall
    exact hall a ha (by simpa using hc)
  simp [finish_validation, jwtDecode, hcfg, hsig, hexp, hiss, hother, haud']

/-- Computation lemma: when the tenant check, the subject check and both
requirement checks pass, the claim checks return the authenticated user
built from the payload. -/
lemma claims_validation_pass (settings : EntraAuthSettings) (claims : TokenClaims) (o : String)
    (htenant : pyTruthyOpt claims.tid = none
      ∨ ∃ t, pyTruthyOpt claims.tid = some t ∧ pyLower t = pyLower settings.tenant_id)
    (hsubj : pyTruthyOpt (pyOrStr claims.oid claims.sub) = some o)
    (hscope : settings.required_scopes = []
      ∨ ∃ s ∈ ensure_tuple claims.scp ' ', s ∈ settings.required_scopes)
    (hrole : settings.required_app_roles = []
      ∨ ∃ r ∈ ensure_tuple claims.roles ',', r ∈ settings.required_app_roles) :
    claims_validation settings claims
      = .ok ⟨o, (pyTruthyOpt claims.tid).getD settings.tenant_id, claims.name,
             pyOrStr claims.preferred_username claims.upn,
             ensure_tuple claims.roles ',', ensure_tuple claims.scp ' ', claims⟩ := by
  have hmis : (match pyTruthyOpt claims.tid with
      | some t => pyLower t != pyLower settings.tenant_id
      | none => false) = false := by
    rcases htenant with h | ⟨t, ht, heq⟩
    · simp [h]
    · simp [ht, heq]
  have hsc : ¬ (settings.required_scopes ≠ []
      ∧ ¬ ∃ s ∈ ensure_tuple claims.scp ' ', s ∈ settings.required_scopes) := by
    rintro ⟨hne, hnot⟩
    rcases hscope with h | h
    · exact hne h
    · exact hnot h
  have hro : ¬ (settings.required_app_roles ≠ []
      ∧ ¬ ∃ r ∈ ensure_tuple claims.roles ',', r ∈ settings.required_app_roles) := by
    rintro ⟨hne, hnot⟩
    rcases hrole with h | h
    · exact hne h
    · exact hnot h
  simp only [claims_validation, hmis, Bool.false_eq_true, if_false, hsubj]
  rw [if_neg hsc, if_neg hro]

/-- Claim C1: a token signed with RS256 by a cached key, carrying an
accepted audience, the cached issuer, a tenant claim case-insensitively
equal to the configured tenant, a subject identifier, and (whenever
required scopes or roles are configured) at least one required scope and
role, validates to an `AuthenticatedUser` whose object id is the `oid`
claim (or `sub` when `oid` is absent) and whose tenant id is the `tid`
claim. -/
theorem validate_token_valid_token_ok (settings : EntraAuthSettings) (world : World)
    (st : VState) (tok : TokenData) (cfg : OpenIdConfig) (key_id : String) (key : JWK)
    (t o : String)
    (hcfg : st.openid_configuration = some cfg)
    (hjwks : st.jwks.isSome = true)
    (hfresh : world.now < st.jwks_expires_at)
    (hhdr : tok.headerOk = true)
    (hkid : pyTruthyOpt tok.kid = some key_id)
    (hfind : get_signing_key st.jwks key_id = some key)
    (hsig : tok.sigKeyMat = some key.mat)
    (hexp : tok.expired = false)
    (haud : tok.claims.aud.any (fun a => settings.audiences.contains a) = true)
    (hiss : tok.claims.iss = cfg.issuer)
    (hother : tok.otherInvalid = false)
    (htid : tok.claims.tid = some t) (htne : t ≠ "")
    (hteq : pyLower t = pyLower settings.tenant_id)
    (hsubj : tok.claims.oid = some o ∧ o ≠ ""
      ∨ tok.claims.oid = none ∧ tok.claims.sub = some o ∧ o ≠ "")
    (hscope : settings.required_scopes = []
      ∨ ∃ s ∈ ensure_tuple tok.claims.scp ' ', s ∈ settings.required_scopes)
    (hrole : settings.required_app_roles = []
      ∨ ∃ r ∈ ensure_tuple tok.claims.roles ',', r ∈ settings.required_app_roles) :
    ∃ user : AuthenticatedUser, (validate_token settings world st tok).1 = .ok user
      ∧ user.object_id = o ∧ user.tenant_id = t := by
  have htid' : pyTruthyOpt tok.claims.tid = some t := by
    simp [pyTruthyOpt, htid, htne]
  have hsubj' : pyTruthyOpt (pyOrStr tok.claims.oid tok.claims.sub) = some o := by
    rcases hsubj with ⟨ho, hne⟩ | ⟨ho, hs, hne⟩
    · simp [pyOrStr, pyTruthy, pyTruthyOpt, ho, hne]
    · simp [pyOrStr, pyTruthy, pyTruthyOpt, ho, hs, hne]
  have hchain := validate_token_cached_key settings world st tok cfg key_id key hcfg hjwks
    hfresh hhdr hkid hfind
  have hdec := finish_validation_decode_ok settings st tok key cfg hcfg hsig hexp haud hiss
    hother
  have hpass := claims_validation_pass settings tok.claims o (Or.inr ⟨t, htid', hteq⟩) hsubj'
    hscope hrole
  refine ⟨⟨o, (pyTruthyOpt tok.claims.tid).getD settings.tenant_id, tok.claims.name,
    pyOrStr tok.claims.preferred_username tok.claims.upn, ensure_tuple tok.claims.roles ',',
    ensure_tuple tok.claims.scp ' ', tok.claims⟩, ?_, rfl, ?_⟩
  · rw [hchain, hdec, hpass]
  · simp [htid']

/-- Claim C9: a token whose tenant claim is absent but which passes every
other check is not rejected: validation succeeds and the configured tenant
identifier is silently substituted as the tenant id of the returned
user. -/
theorem missing_tenant_claim_fallback (settings : EntraAuthSettings) (world : World)
    (st : VState) (tok : TokenData) (cfg : OpenIdConfig) (key_id : String) (key : JWK)
    (o : String)
    (hcfg : st.openid_configuration = some cfg)
    (hjwks : st.jwks.isSome = true)
    (hfresh : world.now < st.jwks_expires_at)
    (hhdr : tok.headerOk = true)
    (hkid : pyTruthyOpt tok.kid = some key_id)
    (hfind : get_signing_key st.jwks key_id = some key)
    (hsig : tok.sigKeyMat = some key.mat)
    (hexp : tok.expired = false)
    (haud : tok.claims.aud.any (fun a => settings.audiences.contains a) = true)
    (hiss : tok.claims.iss = cfg.issuer)
    (hother : tok.otherInvalid = false)
    (htid : tok.claims.tid = none)
    (hsubj : pyTruthyOpt (pyOrStr tok.claims.oid tok.claims.sub) = some o)
    (hscope : settings.required_scopes = []
      ∨ ∃ s ∈ ensure_tuple tok.claims.scp ' ', s ∈ settings.required_scopes)
    (hrole : settings.required_app_roles = []
      ∨ ∃ r ∈ ensure_tuple tok.claims.roles ',', r ∈ settings.required_app_roles) :
    ∃ user : AuthenticatedUser, (validate_token settings world st tok).1 = .ok user
      ∧ user.tenant_id = settings.tenant_id := by
  have htid' : pyTruthyOpt tok.claims.tid = none := by
    simp [pyTruthyOpt, htid]
  have hchain := validate_token_cached_key settings world st tok cfg key_id key hcfg hjwks
    hfresh hhdr hkid hfind
  have hdec := finish_validation_decode_ok settings st tok key cfg hcfg hsig hexp haud hiss
    hother
  have hpass := claims_validation_pass settings tok.claims o (Or.inl htid') hsubj hscope hrole
  refine ⟨⟨o, (pyTruthyOpt tok.claims.tid).getD settings.tenant_id, tok.claims.name,
    pyOrStr tok.claims.preferred_username tok.claims.upn, ensure_tuple tok.claims.roles ',',
    ensure_tuple tok.claims.scp ' ', tok.claims⟩, ?_, ?_⟩
  · rw [hchain, hdec, hpass]
  · simp [htid']

/-- Claim C4: with required scopes (respectively roles) configured, the
scope (role) check passes exactly when the token claim set intersects the
required set — any one required value suffices and full coverage is not
demanded — and with no requirement configured the check is vacuous: under
the other validity hypotheses, validation succeeds if and only if both
intersection conditions hold. -/
theorem scope_role_intersection_check (settings : EntraAuthSettings) (world : World)
    (st : VState) (tok : TokenData) (cfg : OpenIdConfig) (key_id : String) (key : JWK)
    (o : String)
    (hcfg : st.openid_configuration = some cfg)
    (hjwks : st.jwks.isSome = true)
    (hfresh : world.now < st.jwks_expires_at)
    (hhdr : tok.headerOk = true)
    (hkid : pyTruthyOpt tok.kid = some key_id)
    (hfind : get_signing_key st.jwks key_id = some key)
    (hsig : tok.sigKeyMat = some key.mat)
    (hexp : tok.expired = false)
    (haud : tok.claims.aud.any (fun a => settings.audiences.contains a) = true)
    (hiss : tok.claims.iss = cfg.issuer)
    (hother : tok.otherInvalid = false)
    (htenant : pyTruthyOpt tok.claims.tid = none
      ∨ ∃ t, pyTruthyOpt tok.claims.tid = some t ∧ pyLower t = pyLower settings.tenant_id)
    (hsubj : pyTruthyOpt (pyOrStr tok.claims.oid tok.claims.sub) = some o) :
    (∃ user : AuthenticatedUser, (validate_token settings world st tok).1 = .ok user)
      ↔ ((settings.required_scopes = []
            ∨ ∃ s ∈ ensure_tuple tok.claims.scp ' ', s ∈ settings.required_scopes)
         ∧ (settings.required_app_roles = []
            ∨ ∃ r ∈ ensure_tuple tok.claims.roles ',', r ∈ settings.required_app_roles)) := by
  have hmis : (match pyTruthyOpt tok.claims.tid with
      | some t => pyLower t != pyLower settings.tenant_id
      | none => false) = false := by
    rcases htenant with h | ⟨t, ht, heq⟩
    · simp [h]
    · simp [ht, heq]
  have hchain := validate_token_cached_key settings world st tok cfg key_id key hcfg hjwks
    hfresh hhdr hkid hfind
  have hdec := finish_validation_decode_ok settings st tok key cfg hcfg hsig hexp haud hiss
    hother
  have hkeyres : (validate_token settings world st tok).1
      = claims_validation settings tok.claims := by
    rw [hchain, hdec]
  rw [hkeyres]
  simp only [claims_validation, hmis, Bool.false_eq_true, if_false, hsubj]
  by_cases h1 : settings.required_scopes ≠ []
      ∧ ¬ ∃ s ∈ ensure_tuple tok.claims.scp ' ', s ∈ settings.required_scopes
  · rw [if_pos h1]
    constructor
    · rintro ⟨user, hu⟩
      exact Except.noConfusion hu
    · rintro ⟨hsOk, _⟩
      rcases hsOk with h | h
      · exact (h1.1 h).elim
      · exact (h1.2 h).elim
  · rw [if_neg h1]
    by_cases h2 : settings.required_app_roles ≠ []
        ∧ ¬ ∃ r ∈ ensure_tuple tok.claims.roles ',', r ∈ settings.required_app_roles
    · rw [if_pos h2]
      constructor
      · rintro ⟨user, hu⟩
        exact Except.noConfusion hu
      · rintro ⟨_, hrOk⟩
        rcases hrOk with h | h
        · exact (h2.1 h).elim
        · exact (h2.2 h).elim
    · rw [if_neg h2]
      constructor
      · intro _
        constructor
        · rcases not_and_or.mp h1 with h | h
          · exact Or.inl (not_not.mp h)
          · exact Or.inr (not_not.mp h)
        · rcases not_and_or.mp h2 with h | h
          · exact Or.inl (not_not.mp h)
          · exact Or.inr (not_not.mp h)
      · intro _
        exact ⟨_, rfl⟩

/-- Claim C2: a forced key-set refresh is attempted at most once in any
validation call; for a token whose key id is absent from the (fresh)
cached key set, exactly one forced refresh happens, the lookup is retried
once against the refreshed set, and if the key id is still absent the call
fails with the 401 signing-key error without any further refresh. -/
theorem validate_token_single_forced_refresh :
    (∀ (settings : EntraAuthSettings) (world : World) (st : VState) (tok : TokenData),
        (validate_token settings world st tok).2 ≤ 1)
    ∧ (∀ (settings : EntraAuthSettings) (world : World) (st : VState) (tok : TokenData)
        (cfg : OpenIdConfig) (key_id : String),
        st.openid_configuration = some cfg →
        st.jwks.isSome = true →
        world.now < st.jwks_expires_at →
        tok.headerOk = true →
        pyTruthyOpt tok.kid = some key_id →
        get_signing_key st.jwks key_id = none →
        (validate_token settings world st tok).2 = 1
        ∧ ∀ fresh : List JWK, world.jwksFetch = some fresh →
            get_signing_key (some fresh) key_id = none →
            (validate_token settings world st tok).1
              = .error ⟨"Signing key not found for token.", 401⟩) := by
  constructor
  · intro settings world st tok
    unfold validate_token
    repeat' split
    all_goals first
      | exact Nat.zero_le 1
      | exact Nat.le_refl 1
  · intro settings world st tok cfg key_id hcfg hjwks hfresh hhdr hkid hfind
    cases hwf : world.jwksFetch with
    | none =>
      refine ⟨?_, ?_⟩
      · simp [validate_token, ensure_openid_configuration, ensure_jwks, hcfg, hjwks, hfresh,
          hhdr, hkid, hfind, hwf]
      · intro fresh h1 h2
        exact Option.noConfusion h1
    | some fresh0 =>
      cases hg0 : get_signing_key (some fresh0) key_id with
      | some k =>
        refine ⟨?_, ?_⟩
        · simp [validate_token, ensure_openid_configuration, ensure_jwks, hcfg, hjwks, hfresh,
            hhdr, hkid, hfind, hwf, hg0]
        · intro fresh h1 h2
          injection h1 with h1
          subst h1
          rw [hg0] at h2
          exact Option.noConfusion h2
      | none =>
        refine ⟨?_, ?_⟩
        · simp [validate_token, ensure_openid_configuration, ensure_jwks, hcfg, hjwks, hfresh,
            hhdr, hkid, hfind, hwf, hg0]
        · intro fresh h1 h2
          injection h1 with h1
          subst h1
          simp [validate_token, ensure_openid_configuration, ensure_jwks, hcfg, hjwks, hfresh,
            hhdr, hkid, hfind, hwf, hg0]

/-- Every message/status pair that an error raised inside `validate_token`
can carry. -/
def known_errors : List AuthErr :=
  [⟨"Failed to load OpenID configuration.", 500⟩,
   ⟨"OpenID configuration not initialized.", 500⟩,
   ⟨"Failed to load JWKS signing keys.", 500⟩,
   ⟨"Unable to parse token header.", 401⟩,
   ⟨"Token header missing 'kid' claim.", 401⟩,
   ⟨"Signing key not found for token.", 401⟩,
   ⟨"Token validation failed.", 401⟩,
   ⟨"Token has expired.", 401⟩,
   ⟨"Token audience not accepted.", 401⟩,
   ⟨"Token issuer is not trusted.", 401⟩,
   ⟨"Token does not contain required subject identifiers.", 401⟩,
   ⟨"Token tenant does not match configured tenant.", 403⟩,
   ⟨"Token missing required scope.", 403⟩,
   ⟨"Token missing required application role.", 403⟩]

/-- Every failure of the claim checks is one of the known errors. -/
lemma claims_validation_error_mem (settings : EntraAuthSettings) (claims : TokenClaims)
    (e : AuthErr) (h : claims_validation settings claims = .error e) : e ∈ known_errors := by
  unfold claims_validation at h
  repeat' split at h
  all_goals first
    | exact Except.noConfusion h
    | (injection h with h2; subst h2; decide)

/-- Every failure of the post-lookup validation is one of the known
errors. -/
lemma finish_validation_error_mem (settings : EntraAuthSettings) (st : VState)
    (tok : TokenData) (key : JWK) (e : AuthErr)
    (h : finish_validation settings st tok key = .error e) : e ∈ known_errors := by
  unfold finish_validation at h
  repeat' split at h
  all_goals first
    | exact Except.noConfusion h
    | (injection h with h2; subst h2; decide)
    | exact claims_validation_error_mem _ _ _ h

/-- Every failure of the metadata cache fill is one of the known errors. -/
lemma ensure_openid_error_mem (world : World) (st : VState) (e : AuthErr)
    (h : ensure_openid_configuration world st = .error e) : e ∈ known_errors := by
  unfold ensure_openid_configuration at h
  repeat' split at h
  all_goals first
    | exact Except.noConfusion h
    | (injection h with h2; subst h2; decide)

/-- Every failure of the key-set cache fill is one of the known errors. -/
lemma ensure_jwks_error_mem (settings : EntraAuthSettings) (world : World) (st : VState)
    (force_refresh : Bool) (e : AuthErr)
    (h : ensure_jwks settings world st force_refresh = .error e) : e ∈ known_errors := by
  unfold ensure_jwks at h
  repeat' split at h
  all_goals first
    | exact Except.noConfusion h
    | (injection h with h2; subst h2; decide)

/-- Every failure of `validate_token` is one of the known errors. -/
lemma validate_token_error_mem (settings : EntraAuthSettings) (world : World) (st : VState)
    (tok : TokenData) (e : AuthErr)
    (h : (validate_token settings world st tok).1 = .error e) : e ∈ known_errors := by
  unfold validate_token at h
  cases hE : ensure_openid_configuration world st with
  | error e1 =>
    simp only [hE, Except.error.injEq] at h
    subst h
    exact ensure_openid_error_mem _ _ _ hE
  | ok st1 =>
    simp only [hE] at h
    cases hJ : ensure_jwks settings world st1 false with
    | error e1 =>
      simp only [hJ, Except.error.injEq] at h
      subst h
      exact ensure_jwks_error_mem _ _ _ _ _ hJ
    | ok p =>
      obtain ⟨st2, n⟩ := p
      simp only [hJ] at h
      cases hh : tok.headerOk with
      | false =>
        simp only [hh, Bool.not_false, if_true, Except.error.injEq] at h
        subst h
        decide
      | true =>
        simp only [hh, Bool.not_true, Bool.false_eq_true, if_false] at h
        cases hK : pyTruthyOpt tok.kid with
        | none =>
          simp only [hK, Except.error.injEq] at h
          subst h
          decide
        | some key_id =>
          simp only [hK] at h
          cases hG : get_signing_key st2.jwks key_id with
          | some key =>
            simp only [hG] at h
            exact finish_validation_error_mem _ _ _ _ _ h
          | none =>
            simp only [hG] at h
            cases hJ2 : ensure_jwks settings world st2 true with
            | error e1 =>
              simp only [hJ2, Except.error.injEq] at h
              subst h
              exact ensure_jwks_error_mem _ _ _ _ _ hJ2
            | ok p2 =>
              obtain ⟨st3, n2⟩ := p2
              simp only [hJ2] at h
              cases hG2 : get_signing_key st3.jwks key_id with
              | some key =>
                simp only [hG2] at h
                exact finish_validation_error_mem _ _ _ _ _ h
              | none =>
                simp only [hG2, Except.error.injEq] at h
                subst h
                decide

/-- Claim C3: the three authorization failures — tenant mismatch, missing
required scope, missing required application role — carry status 403,
while failures for a malformed header, missing key id, unknown key, bad
signature, expiry, audience, issuer, or missing subject carry 401; and the
middleware rejection for a protected path uses exactly the status code and
message carried by the raised error. -/
theorem auth_failure_status_codes :
    (∀ (settings : EntraAuthSettings) (world : World) (st : VState) (tok : TokenData)
        (e : AuthErr), (validate_token settings world st tok).1 = .error e →
        ((e.message = "Token tenant does not match configured tenant."
            ∨ e.message = "Token missing required scope."
            ∨ e.message = "Token missing required application role.")
          → e.status_code = 403)
        ∧ ((e.message = "Unable to parse token header."
            ∨ e.message = "Token header missing 'kid' claim."
            ∨ e.message = "Signing key not found for token."
            ∨ e.message = "Token validation failed."
            ∨ e.message = "Token has expired."
            ∨ e.message = "Token audience not accepted."
            ∨ e.message = "Token issuer is not trusted."
            ∨ e.message = "Token does not contain required subject identifiers.")
          → e.status_code = 401))
    ∧ (∀ (protectedPrefixes : List String)
        (validator : String → Except AuthErr AuthenticatedUser) (req : HttpRequest)
        (authorization : String) (e : AuthErr),
        ¬ req.method = "OPTIONS" → req.allowAnonymous = false →
        is_protected_path protectedPrefixes req.path = true →
        pyTruthyOpt req.authorization = some authorization →
        pyLower (pyPartition authorization ' ').1 = "bearer" →
        ¬ pyStrip (pyPartition authorization ' ').2 = "" →
        validator (pyStrip (pyPartition authorization ' ').2) = .error e →
        enforce_authentication protectedPrefixes validator req
          = .rejected e.status_code e.message) := by
  constructor
  · intro settings world st tok e h
    have hmem := validate_token_error_mem settings world st tok e h
    simp only [known_errors, List.mem_cons, List.not_mem_nil, or_false] at hmem
    rcases hmem with rfl | rfl | rfl | rfl | rfl | rfl | rfl | rfl | rfl | rfl | rfl | rfl
      | rfl | rfl <;> exact ⟨fun hx => by revert hx; decide, fun hx => by revert hx; decide⟩
  · intro protectedPrefixes validator req authorization e hm ha hp hauth hscheme hcred hval
    simp only [enforce_authentication]
    rw [if_neg (by simpa using hm), if_neg (by simp [ha]), if_neg (by simp [hp])]
    simp only [hauth]
    rw [if_neg (by rw [hscheme]; simp [hcred])]
    simp only [hval]

/-- Claim C6: for every fault-free event sequence the streaming aggregator
emits one data frame per event in exactly the production order, then one
frame containing the completed aggregate event whose sequence number
equals the count of prior events, then the sentinel frame, and nothing
after; pretty-printed `to_json` payloads are flattened to a single line. -/
theorem stream_success_frames (aggregate : List StreamEvent → String)
    (dump_completed : ResponseCompletedEvent → String) (events : List StreamEvent) :
    (stream_execution aggregate dump_completed (.success events)).length = events.length + 2
    ∧ (stream_execution aggregate dump_completed (.success events)).take events.length
        = events.map (fun e => sse_frame (serialize_event e))
    ∧ (stream_execution aggregate dump_completed (.success events)).drop events.length
        = [sse_frame (dump_completed ⟨"response.completed", aggregate events, events.length⟩),
           done_frame]
    ∧ ∀ payload : String, (serialize_event (.toJson payload)).data.all
        (fun c => !(c == '\n') && !(c == '\r')) = true := by
  refine ⟨?_, ?_, ?_, ?_⟩
  · simp [stream_execution]
  · have h := List.take_left (events.map (fun e => sse_frame (serialize_event e)))
      [sse_frame (dump_completed ⟨"response.completed", aggregate events, events.length⟩),
       done_frame]
    simpa [stream_execution] using h
  · have h := List.drop_left (events.map (fun e => sse_frame (serialize_event e)))
      [sse_frame (dump_completed ⟨"response.completed", aggregate events, events.length⟩),
       done_frame]
    simpa [stream_execution] using h
  · intro payload
    simp only [serialize_event, strip_sse_newlines, List.all_eq_true]
    intro c hc
    exact (List.mem_filter.mp hc).2

/-- Claim C7: if event production faults after some emitted events, the
stream is exactly those data frames followed by one structured error frame
(id, object kind, error message, error type, rendered by `json.dumps`) and
then terminates with no aggregate frame; nothing already sent is
retracted, and the total embedding of the generator shows the fault does
not escape as an exception. -/
theorem stream_fault_frames (aggregate : List StreamEvent → String)
    (dump_completed : ResponseCompletedEvent → String) (events : List StreamEvent)
    (message : String) :
    (stream_execution aggregate dump_completed (.fault events message)).length
        = events.length + 1
    ∧ (stream_execution aggregate dump_completed (.fault events message)).take events.length
        = events.map (fun e => sse_frame (serialize_event e))
    ∧ (stream_execution aggregate dump_completed (.fault events message)).drop events.length
        = [sse_frame (error_event_json message)]
    ∧ error_event_json message
        = "\x7b\"id\": \"error\", \"object\": \"error\", \"error\": \x7b\"message\": "
            ++ json_dumps_str message ++ ", \"type\": \"execution_error\"\x7d\x7d" := by
  refine ⟨?_, ?_, ?_, rfl⟩
  · simp [stream_execution]
  · have h := List.take_left (events.map (fun e => sse_frame (serialize_event e)))
      [sse_frame (error_event_json message)]
    simpa [stream_execution] using h
  · have h := List.drop_left (events.map (fun e => sse_frame (serialize_event e)))
      [sse_frame (error_event_json message)]
    simpa [stream_execution] using h

/-- Claim C8: setting an execution context and then resetting with the
returned token restores exactly the prior value whatever happened in
between, the read accessor returns the newly installed context between set
and reset, and the scoped activation restores the prior context while
propagating the body result on both the successful and the faulting exit
path. -/
theorem context_round_trip (prior new intermediate : ContextState) :
    get_current_execution_context (set_current_execution_context new prior).2 = new
    ∧ reset_current_execution_context (set_current_execution_context new prior).1 intermediate
        = prior
    ∧ ∀ (ε α : Type) (context : ExecutionContext)
        (body : ContextState → Except ε α × ContextState),
        (withContext context body prior).2 = prior
        ∧ (withContext context body prior).1 = (body (some context)).1 :=
  ⟨rfl, rfl, fun _ _ _ _ => ⟨rfl, rfl⟩⟩

/-- Claim C10: the settings loader fails when the tenant variable is unset
or empty with a message naming that variable, fails when the audiences
variable is unset or parses to an empty set, and every settings value it
returns has a non-empty audience set. -/
theorem from_env_required_settings :
    (∀ env : EnvMap, pyTruthyOpt env.tenant_id_var = none →
        from_env env
          = .error (.auth ⟨"DEVUI_AZURE_AD_TENANT_ID is not configured on the server.", 500⟩))
    ∧ pyStartswith "DEVUI_AZURE_AD_TENANT_ID is not configured on the server."
        "DEVUI_AZURE_AD_TENANT_ID" = true
    ∧ (∀ env : EnvMap, pyTruthyOpt env.tenant_id_var ≠ none →
        pyTruthyOpt env.allowed_audiences_var = none →
        from_env env
          = .error
              (.auth ⟨"DEVUI_AZURE_AD_ALLOWED_AUDIENCES is not configured on the server.", 500⟩))
    ∧ (∀ (env : EnvMap) (raw : String), pyTruthyOpt env.tenant_id_var ≠ none →
        pyTruthyOpt env.allowed_audiences_var = some raw →
        ((pySplitChar (pyReplaceChar raw ';' ',') ',').map pyStrip).filter (fun a => !(a == "")) = [] →
        from_env env
          = .error
              (.auth
                ⟨"DEVUI_AZURE_AD_ALLOWED_AUDIENCES must contain at least one audience value.",
                 500⟩))
    ∧ (∀ (env : EnvMap) (s : EntraAuthSettings), from_env env = .ok s → s.audiences ≠ []) := by
  refine ⟨?_, by decide, ?_, ?_, ?_⟩
  · intro env h
    simp [from_env, h]
  · intro env h1 h2
    obtain ⟨t, ht⟩ := Option.ne_none_iff_exists'.mp h1
    simp [from_env, ht, h2]
  · intro env raw h1 h2 h3
    obtain ⟨t, ht⟩ := Option.ne_none_iff_exists'.mp h1
    simp [from_env, ht, h2, h3]
  · intro env s h
    unfold from_env at h
    split at h
    · cases h
    · split at h
      · cases h
      · rename_i raw _
        by_cases hemp :
            ((pySplitChar (pyReplaceChar raw ';' ',') ',').map pyStrip).filter
              (fun a => !(a == "")) = []
        · rw [if_pos (by simpa using hemp)] at h
          cases h
        · rw [if_neg (by simpa using hemp)] at h
          split at h
          · cases h
          · split at h
            · cases h
            · cases h
              simpa using hemp

/-- Claim C5: a path is protected exactly when it equals a configured
prefix or extends it past a path separator, and a request whose path is
not protected is forwarded without the validator ever being invoked (the
outcome is `forwarded` with no user, for every validator). -/
theorem protected_path_gating (protectedPrefixes : List String) (path : String) :
    (is_protected_path protectedPrefixes path = true ↔
      ∃ p ∈ protectedPrefixes, path = p ∨ ∃ rest : String, path = p ++ ("/" ++ rest))
    ∧ ∀ (validator : String → Except AuthErr AuthenticatedUser) (req : HttpRequest),
        is_protected_path protectedPrefixes req.path = false →
        enforce_authentication protectedPrefixes validator req = .forwarded none := by
  constructor
  · simp only [is_protected_path, List.any_eq_true, Bool.or_eq_true, beq_iff_eq]
    refine exists_congr fun p => and_congr_right fun _ => or_congr ⟨fun h => h, fun h => h⟩ ?_
    rw [pyStartswith, List.isPrefixOf_iff_prefix]
    constructor
    · rintro ⟨t, htl⟩
      refine ⟨⟨t⟩, String.ext ?_⟩
      rw [← htl]
      simp [String.data_append]
    · rintro ⟨rest, rfl⟩
      exact ⟨rest.data, by simp [String.data_append]⟩
  · intro validator req h
    simp [enforce_authentication, h]

/-- Concrete settings used to instantiate the validator theorems. -/
def sampleSettings : EntraAuthSettings :=
  ⟨"test-tenant", ["api://app-id"], ["DevUI.Read"], [],
   "https://login.microsoftonline.com", 3600, 0⟩

/-- Concrete provider metadata used to instantiate the validator
theorems. -/
def sampleCfg : OpenIdConfig :=
  ⟨"https://sts.windows.net/test-tenant/", "https://example.com/jwks"⟩

/-- Concrete signing key used to instantiate the validator theorems. -/
def sampleKey : JWK := ⟨some "test-key", 7⟩

/-- Concrete validator state with cached metadata and a fresh cached key
set. -/
def sampleState : VState := ⟨some sampleCfg, some [sampleKey], 100⟩

/-- Concrete world: clock inside the cache window, key-set fetch returning
the same single key. -/
def sampleWorld : World := ⟨50, none, some [sampleKey]⟩

/-- Concrete payload claims of a fully valid token. -/
def sampleClaims : TokenClaims :=
  ⟨["api://app-id"], "https://sts.windows.net/test-tenant/", some "TEST-TENANT",
   some "user-123", some "user-123", some "Test User", some "user@example.com", none,
   .absent, .str "DevUI.Read Weather.Read"⟩

/-- Concrete fully valid token. -/
def sampleToken : TokenData := ⟨true, some "test-key", some 7, false, false, sampleClaims⟩

/-- Concrete token referencing a key id that no cached or fetched key
carries. -/
def sampleTokenUnknownKey : TokenData :=
  ⟨true, some "other-key", some 7, false, false, sampleClaims⟩

/-- Concrete token whose tenant claim does not match the configured
tenant. -/
def sampleTokenWrongTenant : TokenData :=
  ⟨true, some "test-key", some 7, false, false,
   ⟨["api://app-id"], "https://sts.windows.net/test-tenant/", some "other-tenant",
    some "user-123", some "user-123", none, none, none, .absent,
    .str "DevUI.Read Weather.Read"⟩⟩

/-- Concrete token carrying no tenant claim at all. -/
def sampleTokenNoTenant : TokenData :=
  ⟨true, some "test-key", some 7, false, false,
   ⟨["api://app-id"], "https://sts.windows.net/test-tenant/", none,
    some "user-123", some "user-123", none, none, none, .absent,
    .str "DevUI.Read Weather.Read"⟩⟩

/-- A validator that always fails with the tenant-mismatch error, used to
instantiate the middleware theorems. -/
def sampleFailingValidator : String → Except AuthErr AuthenticatedUser :=
  fun _ => .error ⟨"Token tenant does not match configured tenant.", 403⟩

/-- Witness for claim C1 at the concrete valid token. -/
theorem validate_token_valid_token_ok_witness :
    ∃ user : AuthenticatedUser,
      (validate_token sampleSettings sampleWorld sampleState sampleToken).1 = .ok user
      ∧ user.object_id = "user-123" ∧ user.tenant_id = "TEST-TENANT" :=
  validate_token_valid_token_ok sampleSettings sampleWorld sampleState sampleToken sampleCfg
    "test-key" sampleKey "TEST-TENANT" "user-123" rfl rfl (by decide) rfl (by decide)
    (by decide) rfl rfl (by decide) rfl rfl rfl (by decide) (by decide)
    (Or.inl ⟨rfl, by decide⟩) (by decide) (Or.inl rfl)

/-- Witness for claim C2 at the concrete token with an unknown key id. -/
theorem validate_token_single_forced_refresh_witness :
    (validate_token sampleSettings sampleWorld sampleState sampleTokenUnknownKey).2 = 1
    ∧ (validate_token sampleSettings sampleWorld sampleState sampleTokenUnknownKey).1
        = .error ⟨"Signing key not found for token.", 401⟩ := by
  have h := validate_token_single_forced_refresh.2 sampleSettings sampleWorld sampleState
    sampleTokenUnknownKey sampleCfg "other-key" rfl rfl (by decide) rfl (by decide) (by decide)
  exact ⟨h.1, h.2 [sampleKey] rfl (by decide)⟩

/-- Witness for claim C3: the tenant-mismatch failure carries 403 and the
middleware rejection reuses exactly that status and message. -/
theorem auth_failure_status_codes_witness :
    (validate_token sampleSettings sampleWorld sampleState sampleTokenWrongTenant).1
      = .error ⟨"Token tenant does not match configured tenant.", 403⟩
    ∧ enforce_authentication ["/v1"] sampleFailingValidator
        ⟨"GET", false, "/v1/entities", some "Bearer abc"⟩
      = .rejected 403 "Token tenant does not match configured tenant." := by
  refine ⟨by decide, ?_⟩
  have h := auth_failure_status_codes.2 ["/v1"] sampleFailingValidator
    ⟨"GET", false, "/v1/entities", some "Bearer abc"⟩ "Bearer abc"
    ⟨"Token tenant does not match configured tenant.", 403⟩
    (by decide) rfl (by decide) (by decide) (by decide) (by decide) rfl
  exact h

/-- Witness for claim C4 at the concrete valid token: the configured
required scope is matched by one of the token scopes, so validation
succeeds. -/
theorem scope_role_intersection_check_witness :
    ∃ user : AuthenticatedUser,
      (validate_token sampleSettings sampleWorld sampleState sampleToken).1 = .ok user := by
  have h := scope_role_intersection_check sampleSettings sampleWorld sampleState sampleToken
    sampleCfg "test-key" sampleKey "user-123" rfl rfl (by decide) rfl (by decide) (by decide)
    rfl rfl (by decide) rfl rfl (Or.inr ⟨"TEST-TENANT", by decide, by decide⟩) (by decide)
  exact h.mpr ⟨by decide, by decide⟩

/-- Witness for claim C5: an unprotected path is forwarded untouched even
with a failing validator installed. -/
theorem protected_path_gating_witness :
    enforce_authentication ["/v1"] sampleFailingValidator
        ⟨"GET", false, "/health", some "Bearer abc"⟩
      = .forwarded none :=
  (protected_path_gating ["/v1"] "/health").2 sampleFailingValidator
    ⟨"GET", false, "/health", some "Bearer abc"⟩ (by decide)

/-- Witness for claim C9 at the concrete token with no tenant claim. -/
theorem missing_tenant_claim_fallback_witness :
    ∃ user : AuthenticatedUser,
      (validate_token sampleSettings sampleWorld sampleState sampleTokenNoTenant).1
        = .ok user
      ∧ user.tenant_id = "test-tenant" :=
  missing_tenant_claim_fallback sampleSettings sampleWorld sampleState sampleTokenNoTenant
    sampleCfg "test-key" sampleKey "user-123" rfl rfl (by decide) rfl (by decide) (by decide)
    rfl rfl (by decide) rfl rfl rfl (by decide) (by decide) (Or.inl rfl)

/-- Witness for claim C10: a missing tenant variable and an audience list
that parses to nothing are both rejected. -/
theorem from_env_required_settings_witness :
    from_env ⟨none, some "x", none, none, none, none, none⟩
      = .error (.auth ⟨"DEVUI_AZURE_AD_TENANT_ID is not configured on the server.", 500⟩)
    ∧ from_env ⟨some "t", some " ; ,", none, none, none, none, none⟩
      = .error
          (.auth
            ⟨"DEVUI_AZURE_AD_ALLOWED_AUDIENCES must contain at least one audience value.",
             500⟩) :=
  ⟨from_env_required_settings.1 ⟨none, some "x", none, none, none, none, none⟩ rfl,
   from_env_required_settings.2.2.2.1 ⟨some "t", some " ; ,", none, none, none, none, none⟩
     " ; ," (by decide) rfl (by decide)⟩

end DevUI
